import Mathlib

set_option maxRecDepth 100000

/-!
Verification of the structured-logging rewrite scripts
(`add_structured_logging.py`, `fix_logger_templates.py`,
`fix_logger_variables.py`, `fix_logger_definitions_final.py`).

The scripts are regex-substitution passes over whole-file text.  We embed
them shallowly: text is `List Char`, and a small backtracking regular
expression engine (`RE`, `mRE`, `subRunStep`) reproduces Python `re.sub`
semantics (leftmost, non-overlapping matches; greedy and lazy quantifiers
with left-to-right alternative preference; numbered capture groups whose
captures parameterize the replacement).  Each Python pattern is transcribed
token for token into an `RE` value, and each replacement lambda into a
function from the capture environment to text.
-/

namespace StructLog

/-- Text is modelled as a list of characters. -/
abbrev Str := List Char

/-- Convert a Lean string literal to the text representation. -/
def chars (s : String) : Str := s.data

/-- The single-quote character `'`. -/
def squote : Char := Char.ofNat 39

/-- The backtick character. -/
def btick : Char := Char.ofNat 96

/-- The left-brace character. -/
def lbrace : Char := Char.ofNat 123

/-- The right-brace character. -/
def rbrace : Char := Char.ofNat 125

/-- Regular-expression abstract syntax, covering exactly the constructs the
four scripts use: literal characters, one-character classes, sequencing,
alternation (left preference), greedy star, lazy star (for `.*?`), and
numbered capture groups. -/
inductive RE where
  | eps
  | ch (c : Char)
  | cls (p : Char → Bool)
  | seq (a b : RE)
  | alt (a b : RE)
  | star (a : RE)
  | lazyStar (a : RE)
  | group (n : Nat) (a : RE)

/-- Capture environment: group number paired with captured text.  Python
keeps a group's last capture; captures are consed on, and `grp` reads the
most recent one. -/
abbrev Env := List (Nat × Str)

/-- Read group `n` from the environment (empty if the group never matched,
matching how the scripts use groups that always participate). -/
def grp (e : Env) (n : Nat) : Str :=
  match e.find? (fun p => p.1 == n) with
  | some p => p.2
  | none => []

/-- Backtracking matcher in continuation-passing style.  Matches `r` against
a prefix of `s`, extending environment `e`, and calls `k` with the remaining
input and environment.  Preference order is Python's: alternation tries the
left branch first, greedy `star` consumes as much as possible first, lazy
`lazyStar` as little as possible first.  `fuel` bounds recursion depth; it is
always instantiated large enough that it never runs out on the inputs used
(running out returns `none`, i.e. no match). -/
def mRE : Nat → RE → Str → Env → (Str → Env → Option (Str × Env)) → Option (Str × Env)
  | 0, _, _, _, _ => none
  | fuel + 1, r, s, e, k =>
    match r with
    | .eps => k s e
    | .ch c =>
      match s with
      | [] => none
      | a :: rest => if a == c then k rest e else none
    | .cls p =>
      match s with
      | [] => none
      | a :: rest => if p a then k rest e else none
    | .seq a b => mRE fuel a s e (fun s2 e2 => mRE fuel b s2 e2 k)
    | .alt a b =>
      match mRE fuel a s e k with
      | some x => some x
      | none => mRE fuel b s e k
    | .star a =>
      match mRE fuel a s e (fun s2 e2 =>
          if s2.length < s.length then mRE fuel (.star a) s2 e2 k else none) with
      | some x => some x
      | none => k s e
    | .lazyStar a =>
      match k s e with
      | some x => some x
      | none =>
        mRE fuel a s e (fun s2 e2 =>
          if s2.length < s.length then mRE fuel (.lazyStar a) s2 e2 k else none)
    | .group n a =>
      mRE fuel a s e (fun s2 e2 =>
        k s2 ((n, s.take (s.length - s2.length)) :: e2))

/-- Depth fuel used for a subject of length `n`: generous bound on the
matcher's recursion depth (pattern walk plus one re-entry per consumed
character). -/
def reFuel (n : Nat) : Nat := 200 * (n + 2) + 200

/-- Try to match `r` at the very start of `s`; on success return the
remaining input and the capture environment. -/
def matchHere (r : RE) (s : Str) : Option (Str × Env) :=
  mRE (reFuel s.length) r s [] (fun rest e => some (rest, e))

/-- One scan of Python `re.sub`: walk left to right, at each position try an
anchored match; on a (nonempty) match emit `rep`'s output and continue after
the match, otherwise copy one character.  Returns the rewritten text and the
number of matches (Python's replacement count; also the length of
`re.finditer`'s match list, which uses the same scan). -/
def subRunStep : Nat → RE → (Env → Str) → Str → Str × Nat
  | 0, _, _, s => (s, 0)
  | fuel + 1, r, rep, s =>
    match matchHere r s with
    | some (rest, e) =>
      if rest.length < s.length then
        let t := subRunStep fuel r rep rest
        (rep e ++ t.1, t.2 + 1)
      else
        -- an empty match cannot arise: every pattern below starts with a
        -- consuming atom; treated as "no further substitution"
        (s, 0)
    | none =>
      match s with
      | [] => ([], 0)
      | c :: cs =>
        let t := subRunStep fuel r rep cs
        (c :: t.1, t.2)

/-- Python `re.sub(pattern, rep, s)` together with the match count. -/
def subCount (r : RE) (rep : Env → Str) (s : Str) : Str × Nat :=
  subRunStep (s.length + 1) r rep s

/-- Python `re.sub(pattern, rep, s)` (text only). -/
def subAll (r : RE) (rep : Env → Str) (s : Str) : Str :=
  (subCount r rep s).1

/-- Python `re.sub(pattern, rep, s, count=1)`: like `subAll` but stops after
the first replacement. -/
def subOneStep : Nat → RE → (Env → Str) → Str → Str
  | 0, _, _, s => s
  | fuel + 1, r, rep, s =>
    match matchHere r s with
    | some (rest, e) =>
      if rest.length < s.length then rep e ++ rest else s
    | none =>
      match s with
      | [] => []
      | c :: cs => c :: subOneStep fuel r rep cs

/-- Python `re.sub(..., count=1)`. -/
def subFirst (r : RE) (rep : Env → Str) (s : Str) : Str :=
  subOneStep (s.length + 1) r rep s

/-- Python's substring containment test (`needle in hay`). -/
def containsSub (needle hay : Str) : Bool :=
  match hay with
  | [] => needle.isEmpty
  | _ :: tl => needle.isPrefixOf hay || containsSub needle tl

/-- Sequence a list of regular expressions. -/
def rcat (l : List RE) : RE := l.foldr RE.seq RE.eps

/-- A literal string as a regular expression (each character matched
exactly; used for the escaped/plain literal runs of the Python patterns). -/
def rchars (s : String) : RE := rcat (s.data.map RE.ch)

/-- `r+` (greedy), as `r r*`. -/
def rplus (r : RE) : RE := .seq r (.star r)

/-- Python `\s` (ASCII range; all texts involved are ASCII). -/
def spaceB (c : Char) : Bool :=
  c == ' ' || c == '\t' || c == '\n' || c == '\r' || c == '\x0b' || c == '\x0c'

/-- Python `\w` (ASCII range). -/
def wordB (c : Char) : Bool := c.isAlphanum || c == '_'

/-- Character class `[^c]`. -/
def notC (c : Char) : Char → Bool := fun a => a != c

/-- Python `(info|warn|error)` (left-to-right preference). -/
def sevAlt : RE := .alt (rchars "info") (.alt (rchars "warn") (rchars "error"))

/-- Python `.strip()`: drop leading and trailing whitespace. -/
def stripWs (s : Str) : Str :=
  ((s.dropWhile spaceB).reverse.dropWhile spaceB).reverse

/-- Python `.rstrip(':')`: drop trailing colons. -/
def rstripColon (s : Str) : Str :=
  (s.reverse.dropWhile (fun c => c == ':')).reverse

/-! ## add_structured_logging.py -/

/-- The 77-character `=` separator row of the banner comments. -/
def eqRow : Str := List.replicate 77 '='

/-- The `LOGGER_CODE` block inserted by `add_logger`
(`add_structured_logging.py`, lines 11-28), byte for byte (the separator
rows are 77 `=` characters). -/
def LOGGER_CODE : Str :=
  chars "\n// " ++ eqRow
    ++ chars "\n// STRUCTURED LOGGER\n// " ++ eqRow
    ++ chars "\n\n/**\n * Lightweight structured logger for Cloud Run agents\n * Outputs JSON for easy parsing in Cloud Logging\n */\nconst logger = \x7b\n  info: (data: Record<string, unknown>, msg: string) =>\n    console.log(JSON.stringify(\x7b level: 'info', msg, ...data, timestamp: new Date().toISOString() \x7d)),\n  warn: (data: Record<string, unknown>, msg: string) =>\n    console.warn(JSON.stringify(\x7b level: 'warn', msg, ...data, timestamp: new Date().toISOString() \x7d)),\n  error: (data: Record<string, unknown>, msg: string) =>\n    console.error(JSON.stringify(\x7b level: 'error', msg, ...data, timestamp: new Date().toISOString() \x7d)),\n\x7d;\n"

/-- Sentinel checked by `add_logger` before inserting. -/
def loggerSentinel : Str := chars "// STRUCTURED LOGGER"

/-- `add_logger`'s insertion-point pattern (DOTALL), transcribed from
`(import.*?;\s*\n)(\n// ===...77...===\n// ENVIRONMENT CONFIGURATION)`. -/
def addLoggerPat : RE :=
  .seq
    (.group 1 (rcat [rchars "import", .lazyStar (.cls (fun _ => true)),
      rchars ";", .star (.cls spaceB), rchars "\n"]))
    (.group 2 (rcat [rchars "\n// ", rcat (eqRow.map RE.ch),
      rchars "\n// ENVIRONMENT CONFIGURATION"]))

/-- `add_logger`'s replacement `r'\1' + LOGGER_CODE + r'\2'`. -/
def addLoggerRep (e : Env) : Str := grp e 1 ++ LOGGER_CODE ++ grp e 2

/-- `add_logger(content)` (`add_structured_logging.py`, lines 32-50): skip if
the sentinel is present, else substitute once at the anchor (returning the
input unchanged when the pattern does not match, the "anchor not found"
case). -/
def add_logger (content : Str) : Str :=
  if containsSub loggerSentinel content then content
  else subFirst addLoggerPat addLoggerRep content

/-- Pattern 1 of `replace_console_log`:
``console\.log\(`\[PFX\] ([^`]+)`\);``. -/
def logPat1 (pfx : String) : RE :=
  rcat [rchars "console.log(", .ch btick, rchars "[", rchars pfx, rchars "] ",
    .group 1 (rplus (.cls (notC btick))), .ch btick, rchars ");"]

/-- Replacement for pattern 1:
`logger.info({}, '[PFX] msg');`. -/
def logRep1 (pfx : String) (e : Env) : Str :=
  chars "logger.info(\x7b\x7d, '[" ++ chars pfx ++ chars "] " ++ grp e 1
    ++ chars "');"

/-- Pattern 2 of `replace_console_log`:
``console\.log\(`\[PFX\] ([^`]+)`,\s*([^)]+)\);``. -/
def logPat2 (pfx : String) : RE :=
  rcat [rchars "console.log(", .ch btick, rchars "[", rchars pfx, rchars "] ",
    .group 1 (rplus (.cls (notC btick))), .ch btick, rchars ",",
    .star (.cls spaceB), .group 2 (rplus (.cls (notC ')'))), rchars ");"]

/-- Replacement for pattern 2: `data_expr = m.group(2).strip()`; wrap under
key `data` if it mentions `JSON.stringify`, else wrap verbatim. -/
def logRep2 (pfx : String) (e : Env) : Str :=
  let dataExpr := stripWs (grp e 2)
  if containsSub (chars "JSON.stringify") dataExpr then
    chars "logger.info(\x7b data: " ++ dataExpr ++ chars " \x7d, '["
      ++ chars pfx ++ chars "] " ++ grp e 1 ++ chars "');"
  else
    chars "logger.info(\x7b " ++ dataExpr ++ chars " \x7d, '["
      ++ chars pfx ++ chars "] " ++ grp e 1 ++ chars "');"

/-- `replace_console_log(content, agent_prefix)` (lines 52-91): pattern 1
then pattern 2, each as a global substitution. -/
def replace_console_log (pfx : String) (content : Str) : Str :=
  subAll (logPat2 pfx) (logRep2 pfx)
    (subAll (logPat1 pfx) (logRep1 pfx) content)

/-- Pattern 1 of `replace_console_error`:
``console\.error\(`\[PFX\] ([^`]+)`\);``. -/
def errPat1 (pfx : String) : RE :=
  rcat [rchars "console.error(", .ch btick, rchars "[", rchars pfx,
    rchars "] ", .group 1 (rplus (.cls (notC btick))), .ch btick, rchars ");"]

/-- Replacement for error pattern 1: `logger.error({}, '[PFX] msg');`. -/
def errRep1 (pfx : String) (e : Env) : Str :=
  chars "logger.error(\x7b\x7d, '[" ++ chars pfx ++ chars "] " ++ grp e 1
    ++ chars "');"

/-- Pattern 2 of `replace_console_error`:
``console\.error\(`\[PFX\] ([^`]+)`,\s*error\);``. -/
def errPat2 (pfx : String) : RE :=
  rcat [rchars "console.error(", .ch btick, rchars "[", rchars pfx,
    rchars "] ", .group 1 (rplus (.cls (notC btick))), .ch btick, rchars ",",
    .star (.cls spaceB), rchars "error);"]

/-- Replacement for error pattern 2: message with trailing colons stripped,
data object extracting a readable message from the `error` value. -/
def errRep2 (pfx : String) (e : Env) : Str :=
  chars "logger.error(\x7b error: error instanceof Error ? error.message : String(error) \x7d, '["
    ++ chars pfx ++ chars "] " ++ rstripColon (grp e 1) ++ chars "');"

/-- `replace_console_error(content, agent_prefix)` (lines 93-127). -/
def replace_console_error (pfx : String) (content : Str) : Str :=
  subAll (errPat2 pfx) (errRep2 pfx)
    (subAll (errPat1 pfx) (errRep1 pfx) content)

/-- Pattern of `replace_console_warn`:
``console\.warn\(`\[PFX\] ([^`]+)`\);``. -/
def warnPat (pfx : String) : RE :=
  rcat [rchars "console.warn(", .ch btick, rchars "[", rchars pfx,
    rchars "] ", .group 1 (rplus (.cls (notC btick))), .ch btick, rchars ");"]

/-- Replacement for the warn pattern: `logger.warn({}, '[PFX] msg');`. -/
def warnRep (pfx : String) (e : Env) : Str :=
  chars "logger.warn(\x7b\x7d, '[" ++ chars pfx ++ chars "] " ++ grp e 1
    ++ chars "');"

/-- `replace_console_warn(content, agent_prefix)` (lines 129-149). -/
def replace_console_warn (pfx : String) (content : Str) : Str :=
  subAll (warnPat pfx) (warnRep pfx) content

/-- The in-memory transformation applied by
`add_structured_logging.process_agent_file` to an existing file's content
(lines 162-170): logger injection, then the three call rewrites. -/
def asl_transform (pfx : String) (content : Str) : Str :=
  replace_console_warn pfx
    (replace_console_error pfx
      (replace_console_log pfx
        (add_logger content)))

/-- `add_structured_logging.process_agent_file` on an existing file: the
file is written back unconditionally (line 173), so the write flag is
`true` for every document. -/
def asl_process_doc (pfx : String) (content : Str) : Str × Bool :=
  (asl_transform pfx content, true)

/-! ## fix_logger_templates.py -/

/-- The `[^']` class. -/
def notQ : Char → Bool := notC squote

/-- The template-normalizer pattern (`fix_logger_templates.py`, lines 21-24):
`(logger\.(info|warn|error)\([^,]+,\s*)'([^']*\$\{[^']*)'(\);)`. -/
def ftPat : RE :=
  rcat [
    .group 1 (rcat [rchars "logger.", .group 2 sevAlt, rchars "(",
      rplus (.cls (notC ',')), rchars ",", .star (.cls spaceB)]),
    .ch squote,
    .group 3 (rcat [.star (.cls notQ), rchars "$", .ch lbrace,
      .star (.cls notQ)]),
    .ch squote,
    .group 4 (rchars ");")]

/-- The normalizer replacement: same prefix, message and suffix, with the
quote characters replaced by backticks. -/
def ftRep (e : Env) : Str := grp e 1 ++ [btick] ++ grp e 3 ++ [btick] ++ grp e 4

/-- The rewritten text the normalizer computes into its local variable
(`fix_logger_templates.py`, line 34). -/
def fix_logger_templates_sub (content : Str) : Str := subAll ftPat ftRep content

/-- `fix_logger_templates(content)` as the source defines it: it RETURNS
ONLY THE COUNT (line 36); the rewritten local text is discarded. -/
def fix_logger_templates (content : Str) : Nat := (subCount ftPat ftRep content).2

/-- `fix_logger_templates.process_agent_file` on an existing file (lines
46-57): computes `count = fix_logger_templates(content)` and, when
`count > 0`, writes back `content` — the caller's unmodified string, since
the rewritten text never left the callee.  Result: (persisted text, whether
a write happened). -/
def ft_process_doc (content : Str) : Str × Bool :=
  if 0 < fix_logger_templates content then (content, true) else (content, false)

/-! ## fix_logger_variables.py -/

/-- Head `(logger\.(info|warn|error)\(\{\},\s*)` shared by catalog entries
1-3 and 6 (severity captured as group 2 inside group 1). -/
def fvHeadSev : RE :=
  .group 1 (rcat [rchars "logger.", .group 2 sevAlt, rchars "(\x7b\x7d,",
    .star (.cls spaceB)])

/-- Head `(logger\.error\(\{\},\s*)` of catalog entries 4 and 5 (group 1,
no severity group). -/
def fvHeadError : RE :=
  .group 1 (rcat [rchars "logger.error(\x7b\x7d,", .star (.cls spaceB)])

/-- Head `(logger\.info\(\{\},\s*)` of catalog entries 7 onwards (group 1,
no severity group). -/
def fvHeadInfo : RE :=
  .group 1 (rcat [rchars "logger.info(\x7b\x7d,", .star (.cls spaceB)])

/-- `\$\{` followed by a literal expression followed by `\}`. -/
def interp (expr : String) : RE :=
  rcat [rchars "$", .ch lbrace, rchars expr, .ch rbrace]

/-- Single-variable body for the `params.*`-style entries (groups 2-4):
`'([^']*)\$\{EXPR\}([^']*)'(\);)` after the group-1 head. -/
def fvBodyOne (expr : String) : RE :=
  rcat [.ch squote, .group 2 (.star (.cls notQ)), interp expr,
    .group 3 (.star (.cls notQ)), .ch squote, .group 4 (rchars ");")]

/-- Replacement for a `params.*`-style entry:
`g1 + "{ KEY: EXPR }, '" + g2 + " [KEY]" + g3 + "'" + g4`. -/
def fvRepOne (key expr : String) (e : Env) : Str :=
  grp e 1 ++ chars "\x7b " ++ chars key ++ chars ": " ++ chars expr
    ++ chars " \x7d, '" ++ grp e 2 ++ chars " [" ++ chars key ++ chars "]"
    ++ grp e 3 ++ chars "'" ++ grp e 4

/-- Two-variable body for the paired `params.*` entries (groups 2-5). -/
def fvBodyTwo (e1 e2 : String) : RE :=
  rcat [.ch squote, .group 2 (.star (.cls notQ)), interp e1,
    .group 3 (.star (.cls notQ)), interp e2,
    .group 4 (.star (.cls notQ)), .ch squote, .group 5 (rchars ");")]

/-- Replacement for a paired `params.*` entry. -/
def fvRepTwo (k1 x1 k2 x2 : String) (e : Env) : Str :=
  grp e 1 ++ chars "\x7b " ++ chars k1 ++ chars ": " ++ chars x1 ++ chars ", "
    ++ chars k2 ++ chars ": " ++ chars x2 ++ chars " \x7d, '" ++ grp e 2
    ++ chars " [" ++ chars k1 ++ chars "]" ++ grp e 3
    ++ chars " [" ++ chars k2 ++ chars "]" ++ grp e 4 ++ chars "'" ++ grp e 5

/-- Catalog entry 1, `tenantId`:
`(logger\.(info|warn|error)\(\{\},\s*)'([^']*)\$\{tenantId\}([^']*)'(\);)`
rewritten to `g1{ tenantId }, 'g3 [tenantId]g4'g5`. -/
def fvTenantPat : RE :=
  rcat [fvHeadSev, .ch squote, .group 3 (.star (.cls notQ)),
    interp "tenantId", .group 4 (.star (.cls notQ)), .ch squote,
    .group 5 (rchars ");")]

/-- Replacement of catalog entry 1. -/
def fvTenantRep (e : Env) : Str :=
  grp e 1 ++ chars "\x7b tenantId \x7d, '" ++ grp e 3
    ++ chars " [tenantId]" ++ grp e 4 ++ chars "'" ++ grp e 5

/-- Catalog entry 2, `agentName` (same shape as entry 1). -/
def fvAgentNamePat : RE :=
  rcat [fvHeadSev, .ch squote, .group 3 (.star (.cls notQ)),
    interp "agentName", .group 4 (.star (.cls notQ)), .ch squote,
    .group 5 (rchars ");")]

/-- Replacement of catalog entry 2. -/
def fvAgentNameRep (e : Env) : Str :=
  grp e 1 ++ chars "\x7b agentName \x7d, '" ++ grp e 3
    ++ chars " [agentName]" ++ grp e 4 ++ chars "'" ++ grp e 5

/-- Catalog entry 3, session identifiers:
`...'([^']*)\$\{(\w*[sS]essionId)\}([^']*)'(\);)` — the variable name
(group 4) is any `\w*` ending in `sessionId`/`SessionId`. -/
def fvSessionPat : RE :=
  rcat [fvHeadSev, .ch squote, .group 3 (.star (.cls notQ)),
    rchars "$", .ch lbrace,
    .group 4 (rcat [.star (.cls wordB),
      .cls (fun c => c == 's' || c == 'S'), rchars "essionId"]),
    .ch rbrace,
    .group 5 (.star (.cls notQ)), .ch squote, .group 6 (rchars ");")]

/-- Replacement of catalog entry 3:
`g1{ sessionId: g4 }, 'g3 [sessionId]g5'g6`. -/
def fvSessionRep (e : Env) : Str :=
  grp e 1 ++ chars "\x7b sessionId: " ++ grp e 4 ++ chars " \x7d, '"
    ++ grp e 3 ++ chars " [sessionId]" ++ grp e 5 ++ chars "'" ++ grp e 6

/-- Catalog entry 4, `response.status` (error severity only, groups 2-4). -/
def fvStatusPat : RE := rcat [fvHeadError, fvBodyOne "response.status"]

/-- Replacement of catalog entry 4. -/
def fvStatusRep : Env → Str := fvRepOne "status" "response.status"

/-- Catalog entry 5, `errorText` (error severity only). -/
def fvErrorTextPat : RE := rcat [fvHeadError, fvBodyOne "errorText"]

/-- Replacement of catalog entry 5 (shorthand field). -/
def fvErrorTextRep (e : Env) : Str :=
  grp e 1 ++ chars "\x7b errorText \x7d, '" ++ grp e 2
    ++ chars " [errorText]" ++ grp e 3 ++ chars "'" ++ grp e 4

/-- Catalog entry 6, the compound `agentName` + session-identifier rule:
`...'([^']*)\$\{agentName\}([^']*)\$\{(\w*[sS]essionId)\}([^']*)'(\);)`. -/
def fvAgentSessionPat : RE :=
  rcat [fvHeadSev, .ch squote, .group 3 (.star (.cls notQ)),
    interp "agentName", .group 4 (.star (.cls notQ)),
    rchars "$", .ch lbrace,
    .group 5 (rcat [.star (.cls wordB),
      .cls (fun c => c == 's' || c == 'S'), rchars "essionId"]),
    .ch rbrace,
    .group 6 (.star (.cls notQ)), .ch squote, .group 7 (rchars ");")]

/-- Replacement of catalog entry 6:
`g1{ agentName, sessionId: g5 }, 'g3 [agentName]g4 [sessionId]g6'g7`. -/
def fvAgentSessionRep (e : Env) : Str :=
  grp e 1 ++ chars "\x7b agentName, sessionId: " ++ grp e 5
    ++ chars " \x7d, '" ++ grp e 3 ++ chars " [agentName]" ++ grp e 4
    ++ chars " [sessionId]" ++ grp e 6 ++ chars "'" ++ grp e 7

/-- Catalog entry 21, `params.question.substring(0,\s*50)`: the interpolated
expression itself contains `\s*`; the replacement uses the fixed spelling
`params.question.substring(0, 50)`. -/
def fvQuestionPat : RE :=
  rcat [fvHeadInfo, .ch squote, .group 2 (.star (.cls notQ)),
    rchars "$", .ch lbrace,
    rchars "params.question.substring(0,", .star (.cls spaceB), rchars "50)",
    .ch rbrace,
    .group 3 (.star (.cls notQ)), .ch squote, .group 4 (rchars ");")]

/-- `VARIABLE_PATTERNS` (`fix_logger_variables.py`, lines 16-104), in
catalog order. -/
def VARIABLE_PATTERNS : List (RE × (Env → Str)) := [
  (fvTenantPat, fvTenantRep),
  (fvAgentNamePat, fvAgentNameRep),
  (fvSessionPat, fvSessionRep),
  (fvStatusPat, fvStatusRep),
  (fvErrorTextPat, fvErrorTextRep),
  (fvAgentSessionPat, fvAgentSessionRep),
  (rcat [fvHeadInfo, fvBodyOne "params.task"],
    fvRepOne "task" "params.task"),
  (rcat [fvHeadInfo, fvBodyOne "params.pageName"],
    fvRepOne "pageName" "params.pageName"),
  (rcat [fvHeadInfo, fvBodyOne "params.enabled"],
    fvRepOne "enabled" "params.enabled"),
  (rcat [fvHeadInfo, fvBodyOne "params.toPosition"],
    fvRepOne "toPosition" "params.toPosition"),
  (rcat [fvHeadInfo, fvBodyTwo "params.sectionType" "params.pageName"],
    fvRepTwo "sectionType" "params.sectionType" "pageName" "params.pageName"),
  (rcat [fvHeadInfo, fvBodyOne "params.sectionId"],
    fvRepOne "sectionId" "params.sectionId"),
  (rcat [fvHeadInfo, fvBodyOne "params.context"],
    fvRepOne "context" "params.context"),
  (rcat [fvHeadInfo, fvBodyOne "params.serviceName"],
    fvRepOne "serviceName" "params.serviceName"),
  (rcat [fvHeadInfo, fvBodyOne "params.copyType"],
    fvRepOne "copyType" "params.copyType"),
  (rcat [fvHeadInfo, fvBodyTwo "params.industry" "params.location"],
    fvRepTwo "industry" "params.industry" "location" "params.location"),
  (rcat [fvHeadInfo, fvBodyOne "params.url"],
    fvRepOne "url" "params.url"),
  (rcat [fvHeadInfo, fvBodyOne "params.competitors.length"],
    fvRepOne "competitorCount" "params.competitors.length"),
  (rcat [fvHeadInfo, fvBodyOne "params.serviceId"],
    fvRepOne "serviceId" "params.serviceId"),
  (rcat [fvHeadInfo, fvBodyTwo "params.startDate" "params.endDate"],
    fvRepTwo "startDate" "params.startDate" "endDate" "params.endDate"),
  (fvQuestionPat, fvRepOne "question" "params.question.substring(0, 50)"),
  (rcat [fvHeadInfo, fvBodyOne "params.scheduledAt"],
    fvRepOne "scheduledAt" "params.scheduledAt")]

/-- The body of `fix_logger_variables` (`fix_logger_variables.py`, lines
106-119): fold the catalog in order, each entry counting its matches
(`re.finditer`) and substituting globally (`re.sub`, the same scan).
Returns the rewritten local text together with the total count. -/
def fix_logger_variables_run (content : Str) : Str × Nat :=
  VARIABLE_PATTERNS.foldl
    (fun acc p =>
      let r := subCount p.1 p.2 acc.1
      (r.1, acc.2 + r.2))
    (content, 0)

/-- The rewritten text `fix_logger_variables` computes into its local
variable. -/
def fix_logger_variables_sub (content : Str) : Str :=
  (fix_logger_variables_run content).1

/-- `fix_logger_variables(content)` as the source defines it: it returns
only the count (line 119). -/
def fix_logger_variables (content : Str) : Nat :=
  (fix_logger_variables_run content).2

/-- `fix_logger_variables.process_agent_file` on an existing file (lines
131-138): reads content, computes the count, then writes back `content` —
the caller's unmodified string — unconditionally. -/
def fv_process_doc (content : Str) : Str × Bool := (content, true)

/-! ## fix_logger_definitions_final.py -/

/-- `CORRECT_LOGGER` (`fix_logger_definitions_final.py`, lines 6-13), byte
for byte. -/
def CORRECT_LOGGER : Str := chars
  "const logger = \x7b\n  info: (data: Record<string, unknown>, msg: string) =>\n    console.log(JSON.stringify(\x7b level: 'info', msg, ...data, timestamp: new Date().toISOString() \x7d)),\n  warn: (data: Record<string, unknown>, msg: string) =>\n    console.warn(JSON.stringify(\x7b level: 'warn', msg, ...data, timestamp: new Date().toISOString() \x7d)),\n  error: (data: Record<string, unknown>, msg: string) =>\n    console.error(JSON.stringify(\x7b level: 'error', msg, ...data, timestamp: new Date().toISOString() \x7d)),\n\x7d;"

/-- The declaration pattern `const logger = \{[^}]+\};` (DOTALL; the class
`[^}]` admits newlines regardless). -/
def loggerDefPat : RE :=
  rcat [rchars "const logger = ", .ch lbrace, rplus (.cls (notC rbrace)),
    .ch rbrace, rchars ";"]

/-- `fix_logger_definition(content)` (`fix_logger_definitions_final.py`,
lines 17-25): replace every match of the declaration pattern with
`CORRECT_LOGGER`. -/
def fix_logger_definition (content : Str) : Str :=
  subAll loggerDefPat (fun _ => CORRECT_LOGGER) content

/-! ## The full pass sequence (spec section 4 order) -/

/-- One full run in the spec's fixed order: 4.1 injector and 4.2 rewriter
(`asl_transform`), then 4.3 normalizer, then 4.4 extractor, each pass
consuming the previous pass's in-memory output. -/
def full_pass (pfx : String) (content : Str) : Str :=
  fix_logger_variables_sub
    (fix_logger_templates_sub
      (asl_transform pfx content))

/-! ## Observations on a Structured Call Site (spec section 3)

Specification-side observation functions, used to state the field/tag
pairing invariant.  A structured call has the shape
`logger.SEV(OBJ, 'MSG');` — the data object is the call's first argument
(between the first brace pair) and the message is the quoted literal.
Per the spec glossary a *tag* is a bracketed placeholder left in a message
in place of an extracted interpolation reference; a leading `[Prefix]`
marker is part of the original message text, not an extraction tag, so
`extractedTags` drops a leading bracketed group. -/

/-- Characters strictly before the first occurrence of `c`. -/
def takeUntilC (c : Char) : Str → Str
  | [] => []
  | a :: tl => if a == c then [] else a :: takeUntilC c tl

/-- Characters strictly after the first occurrence of `c` (empty if `c`
does not occur). -/
def dropThroughC (c : Char) : Str → Str
  | [] => []
  | a :: tl => if a == c then tl else dropThroughC c tl

/-- Contents of the call's data object: the text between the first `{`
and the next `}`. -/
def dataObjContents (call : Str) : Str :=
  takeUntilC rbrace (dropThroughC lbrace call)

/-- Split on every comma. -/
def splitCommas : Str → List Str
  | [] => [[]]
  | a :: tl =>
    if a == ',' then [] :: splitCommas tl
    else
      match splitCommas tl with
      | [] => [[a]]
      | h :: t => (a :: h) :: t

/-- Field names of the call's data object: each comma-separated entry,
trimmed, up to its `:` (shorthand entries are their own name); empty for
an empty object. -/
def dataFieldNames (call : Str) : List Str :=
  ((splitCommas (dataObjContents call)).map
    (fun f => stripWs (takeUntilC ':' f))).filter (fun f => !f.isEmpty)

/-- The message literal of the call: the text between the first and the
last single quote. -/
def msgOf (call : Str) : Str :=
  (dropThroughC squote ((dropThroughC squote call).reverse)).reverse

/-- Bracketed groups `[...]` of a text, left to right (fuel-driven scan). -/
def tagScan : Nat → Str → List Str
  | 0, _ => []
  | _, [] => []
  | fuel + 1, a :: tl =>
    if a == '[' then takeUntilC ']' tl :: tagScan fuel (dropThroughC ']' tl)
    else tagScan fuel tl

/-- All bracketed groups of a text. -/
def bracketTags (s : Str) : List Str := tagScan s.length s

/-- The extraction tags of a message: its bracketed groups, minus a leading
source-prefix marker such as `[Agent]` (present since before any
extraction). -/
def extractedTags (msg : Str) : List Str :=
  match msg with
  | [] => []
  | a :: _ => if a == '[' then (bracketTags msg).drop 1 else bracketTags msg

/-! ## The orchestrator of add_structured_logging.py over a modelled
filesystem (spec section 4.5) -/

/-- The filesystem: a map from path to file content (`none` = missing). -/
abbrev FS := String → Option Str

/-- The fixed path scheme (`add_structured_logging.py`, line 153). -/
def agentFilePath (name : String) : String :=
  "server/src/agent-v2/deploy/" ++ name ++ "/src/agent.ts"

/-- Writing a file. -/
def fsWrite (fs : FS) (p : String) (c : Str) : FS :=
  fun q => if q = p then some c else fs q

/-- `process_agent_file(agent_name, agent_prefix)` (lines 151-176): `False`
if the path is missing (nothing read or written), else transform the
content, write it back, and report `True`. -/
def asl_process_agent_file (fs : FS) (name pfx : String) : Bool × FS :=
  match fs (agentFilePath name) with
  | none => (false, fs)
  | some content =>
    (true, fsWrite fs (agentFilePath name) (asl_transform pfx content))

/-- `AGENTS` with the `agent_prefixes` mapping of `main` (lines 30 and
183-189), in iteration order. -/
def AGENT_LIST : List (String × String) :=
  [("concierge", "Concierge"), ("storefront", "StorefrontAgent"),
   ("marketing", "MarketingAgent"), ("research", "ResearchAgent"),
   ("booking", "BookingAgent")]

/-- The `main` loop (lines 191-194): process each identifier in listed
order, collecting each outcome; a failure never stops the loop. -/
def asl_run_agents : List (String × String) → FS → List Bool × FS
  | [], fs => ([], fs)
  | ap :: rest, fs =>
    let pr := asl_process_agent_file fs ap.1 ap.2
    let r := asl_run_agents rest pr.2
    (pr.1 :: r.1, r.2)

/-- `success_count` reported by the final summary line
(`Processed {success_count}/{len(AGENTS)}`, line 197). -/
def asl_success_count (fs : FS) : Nat :=
  ((asl_run_agents AGENT_LIST fs).1).count true

/-- The summary denominator `len(AGENTS)`. -/
def asl_total_count : Nat := AGENT_LIST.length

/-! ## Concrete documents used by the claims -/

/-- A document whose one structured call has a single-quoted message with
an interpolation marker. -/
def docTemplateIn : Str := chars "logger.info(\x7b\x7d, '[Agent] Hi $\x7bx\x7d');"

/-- The backtick-quoted rewrite of `docTemplateIn` that the normalizer
computes (but never persists). -/
def docTemplateFixed : Str := chars "logger.info(\x7b\x7d, `[Agent] Hi $\x7bx\x7d`);"

/-- A document none of the passes change. -/
def docNoMatch : Str := chars "hello"

/-- Scenario C input: `logger.info({}, '[Agent] Session ${sessionId} ready');`. -/
def docSessionIn : Str :=
  chars "logger.info(\x7b\x7d, '[Agent] Session $\x7bsessionId\x7d ready');"

/-- What the extractor actually produces on `docSessionIn`: the empty
object is kept, a second object argument is inserted with an explicit
`sessionId: sessionId` entry, and the message gains a double space. -/
def docSessionActual : Str :=
  chars "logger.info(\x7b\x7d, \x7b sessionId: sessionId \x7d, '[Agent] Session  [sessionId] ready');"

/-- The output Scenario C claims: `logger.info({ sessionId }, '[Agent] Session [sessionId] ready');`. -/
def docSessionClaimed : Str :=
  chars "logger.info(\x7b sessionId \x7d, '[Agent] Session [sessionId] ready');"

/-- A structured call whose message holds both an `agentName` and a
session-identifier interpolation, with an empty data object. -/
def docAgentSessionIn : Str :=
  chars "logger.info(\x7b\x7d, '[A] $\x7bagentName\x7d in $\x7bsessionId\x7d go');"

/-- The extractor's actual output on `docAgentSessionIn`: the single-field
`agentName` rule (catalog entry 2) fires; the session interpolation is left
in the message. -/
def docAgentSessionSingle : Str :=
  chars "logger.info(\x7b\x7d, \x7b agentName \x7d, '[A]  [agentName] in $\x7bsessionId\x7d go');"

/-- What the compound rule (catalog entry 6) would produce on
`docAgentSessionIn` if it were applied. -/
def docAgentSessionCompound : Str :=
  chars "logger.info(\x7b\x7d, \x7b agentName, sessionId: sessionId \x7d, '[A]  [agentName] in  [sessionId] go');"

/-- Scenario B input: ``console.error(`[Agent] Failed:`, error);``. -/
def docScenarioB : Str := chars "console.error(`[Agent] Failed:`, error);"

/-- Scenario B output:
`logger.error({ error: error instanceof Error ? error.message : String(error) }, '[Agent] Failed');`. -/
def outScenarioB : Str :=
  chars "logger.error(\x7b error: error instanceof Error ? error.message : String(error) \x7d, '[Agent] Failed');"

/-- Scenario A input: ``console.log(`[Agent] Starting`);``. -/
def docScenarioA : Str := chars "console.log(`[Agent] Starting`);"

/-- A legacy call whose trailing expression is a `JSON.stringify(...)`
application. -/
def docStringify : Str :=
  chars "console.log(`[Agent] Data`, JSON.stringify(args));"

/-- A legacy call with a parenthesis-free trailing expression. -/
def docPayload : Str := chars "console.log(`[Agent] Data`, payload);"

/-- The rewrite of `docPayload`. -/
def outPayload : Str := chars "logger.info(\x7b payload \x7d, '[Agent] Data');"

/-- A document with two overlapping normalizer candidates: the first match
(`logger.warn(c, 'm${n logger.info(u');`) consumes the head of the second
call, whose single-quoted interpolated message survives the first run and
is re-exposed once the first call is backtick-quoted. -/
def docOverlap : Str :=
  chars "logger.warn(c, 'm$\x7bn logger.info(u');v, '$\x7btenantId\x7dw');"

/-- A document exercising the rewriter's message-only, error and
interpolated shapes (scenarios A, B and D). -/
def docRoundTrip : Str :=
  chars "console.log(`[Agent] Starting`);\nconsole.error(`[Agent] Failed:`, error);\nconsole.log(`[Agent] Done $\x7bfoo\x7d`);\n"

/-- A document that contains the canonical `CORRECT_LOGGER` text and, after
it, an old-style one-line logger declaration. -/
def docTwoLoggers : Str := CORRECT_LOGGER ++ chars "\nconst logger = \x7bx\x7d;"

/-- A filesystem on which exactly one identifier's expected path is
missing. -/
def fsMissingStorefront : FS :=
  fun p => if p = agentFilePath "storefront" then none else some docScenarioA

/-! ## Theorems -/

/-- Helper: the outcome list of the orchestrator loop records, for each
identifier in order, whether its file existed in the initial filesystem;
writes only overwrite files that already existed, so presence is stable
across the loop. -/
theorem asl_outcomes_eq (l : List (String × String)) :
    ∀ fs : FS, (asl_run_agents l fs).1
      = l.map (fun ap => (fs (agentFilePath ap.1)).isSome) := by
  induction l with
  | nil => intro fs; rfl
  | cons hd tl ih =>
    intro fs
    cases h : fs (agentFilePath hd.1) with
    | none =>
      simp only [asl_run_agents, asl_process_agent_file, h, List.map_cons,
        Option.isSome_none, ih fs]
    | some c =>
      have hpt :
          (fun ap : String × String =>
            ((fsWrite fs (agentFilePath hd.1) (asl_transform hd.2 c))
              (agentFilePath ap.1)).isSome)
          = (fun ap : String × String => (fs (agentFilePath ap.1)).isSome) := by
        funext ap
        by_cases hq : agentFilePath ap.1 = agentFilePath hd.1
        · simp [fsWrite, hq, h]
        · simp [fsWrite, hq]
      simp only [asl_run_agents, asl_process_agent_file, h, List.map_cons,
        Option.isSome_some, ih, hpt]

/-- Helper: counting `true` in a Boolean image equals the length of the
filtered list. -/
theorem count_true_map_eq {α : Type} (f : α → Bool) (l : List α) :
    (l.map f).count true = (l.filter f).length := by
  induction l with
  | nil => rfl
  | cons a tl ih =>
    cases ha : f a <;> simp [List.count_cons, List.filter_cons, ha, ih]

/-- Claim C1: for a document with a structured call whose single-quoted
message holds an interpolation marker, `fix_logger_templates` computes the
backtick-quoted rewrite only into its local variable and returns the match
count; `process_agent_file` then writes the caller's UNCHANGED text back, so
the persisted document still has single quotes — the rewrite, which differs
from the input, is discarded.  (The claim says the persisted document has
the message in template-literal quoting.) -/
theorem C1_template_rewrite_discarded :
    ft_process_doc docTemplateIn = (docTemplateIn, true)
      ∧ fix_logger_templates_sub docTemplateIn = docTemplateFixed
      ∧ docTemplateIn ≠ docTemplateFixed := by
  refine ⟨by decide, by decide, by decide⟩

/-- Claim C2 (counterexample): a document no pass changes is still written
back by `add_structured_logging.process_agent_file` — the transformed text
equals the text read, yet the write flag is `true`, contradicting "the file
is written back only if the text produced by the passes differs". -/
theorem C2_write_back_despite_no_change :
    asl_process_doc "Agent" docNoMatch = (docNoMatch, true) := by decide

/-- Claim C2 (amended): for every document, `add_structured_logging` and
`fix_logger_variables` write the file back unconditionally once it exists,
whether or not any pass changed the text; only `fix_logger_templates` gates
its write, on a positive substitution count (and then writes the original
text). -/
theorem C2_write_back_unconditional (pfx : String) (content : Str) :
    (asl_process_doc pfx content).2 = true
      ∧ (fv_process_doc content).2 = true
      ∧ (ft_process_doc content).2 = decide (0 < fix_logger_templates content) := by
  refine ⟨rfl, rfl, ?_⟩
  unfold ft_process_doc
  by_cases h : 0 < fix_logger_templates content <;> simp [h]

/-- Claim C2 (witness for the amended statement, at a concrete document). -/
theorem C2_write_back_unconditional_witness :
    (asl_process_doc "Agent" docNoMatch).2 = true
      ∧ (fv_process_doc docNoMatch).2 = true
      ∧ (ft_process_doc docNoMatch).2 = decide (0 < fix_logger_templates docNoMatch) :=
  C2_write_back_unconditional "Agent" docNoMatch

/-- Claim C3: on `logger.info({}, '[Agent] Session ${sessionId} ready');`
the extractor's actual output keeps the empty object, inserts the data
object as an extra argument with an explicit `sessionId: sessionId` entry,
and doubles the space before the tag — it is not the claimed
`logger.info({ sessionId }, '[Agent] Session [sessionId] ready');` (which
is what the script's own docstring promises). -/
theorem C3_extractor_actual_output :
    fix_logger_variables_sub docSessionIn = docSessionActual
      ∧ docSessionActual ≠ docSessionClaimed := by
  refine ⟨by decide, by decide⟩

/-- Claim C4 (counterexample): on a call whose message holds both an
`agentName` and a session-identifier interpolation, the extractor does NOT
produce the compound rule's rewrite, even though the compound rule alone
would match the input and produce it — the compound rule is listed after
the single-field rules, not checked before them. -/
theorem C4_compound_rule_not_applied :
    fix_logger_variables_sub docAgentSessionIn ≠ docAgentSessionCompound
      ∧ subAll fvAgentSessionPat fvAgentSessionRep docAgentSessionIn
          = docAgentSessionCompound := by
  refine ⟨by decide, by decide⟩

/-- Claim C4 (amended): the single-field `agentName` rule (catalog entry 2,
listed before the compound entry 6) rewrites the call first; after its
rewrite neither the session single-field rule nor the compound rule
matches, so the session interpolation stays in the message unextracted. -/
theorem C4_single_rule_first :
    fix_logger_variables_sub docAgentSessionIn = docAgentSessionSingle
      ∧ containsSub (chars "$\x7bsessionId\x7d") docAgentSessionSingle = true := by
  refine ⟨by decide, by decide⟩

/-- Claim C5 (counterexample): after a full run on Scenario B's document,
the produced structured call's data object has field set `{error}` while
its message has no extraction tags — the two sets differ, refuting the
field/tag pairing invariant. -/
theorem C5_field_tag_sets_differ :
    full_pass "Agent" docScenarioB = outScenarioB
      ∧ dataFieldNames outScenarioB = [chars "error"]
      ∧ extractedTags (msgOf outScenarioB) = []
      ∧ dataFieldNames outScenarioB ≠ extractedTags (msgOf outScenarioB) := by
  refine ⟨by decide, by decide, by decide, by decide⟩

/-- Claim C5 (amended): the field/tag equality does hold for message-only
call sites — after a full run on Scenario A's document the produced call's
field set and extraction-tag set are both empty; it fails in general
because the message-plus-data and error rewrite rules add data fields with
no corresponding message tags. -/
theorem C5_message_only_sets_equal :
    dataFieldNames (full_pass "Agent" docScenarioA)
      = extractedTags (msgOf (full_pass "Agent" docScenarioA)) := by decide

/-- Claim C6: a legacy call whose trailing expression is a
`JSON.stringify(...)` application is left completely untouched by the
rewriter — the pattern's `[^)]+` cannot span the `)` inside the
application, so the `data:` branch is unreachable for it (contradicting the
code's own comment listing this very shape) — while a parenthesis-free
trailing expression is wrapped verbatim as claimed. -/
theorem C6_stringify_left_untouched :
    replace_console_log "Agent" docStringify = docStringify
      ∧ replace_console_log "Agent" docPayload = outPayload := by
  refine ⟨by decide, by decide⟩

/-- Claim C7 (counterexample): the full pass sequence is not idempotent: on
`docOverlap` the first run's normalizer match consumes the head of an
overlapping second call, whose single-quoted interpolated message is then
re-exposed, so the second run performs a further substitution and changes
the text. -/
theorem C7_second_run_changes_text :
    full_pass "Agent" (full_pass "Agent" docOverlap)
      ≠ full_pass "Agent" docOverlap := by decide

/-- Claim C7 (amended): on documents made of the rewriter's recognized call
shapes (message-only, message-plus-error, interpolated message — scenarios
A, B, D), running the full pass sequence twice equals running it once. -/
theorem C7_idempotent_on_rewritten_shapes :
    full_pass "Agent" (full_pass "Agent" docRoundTrip)
      = full_pass "Agent" docRoundTrip := by decide

/-- Claim C8: on ``console.error(`[Agent] Failed:`, error);`` with prefix
`Agent`, the rewriter produces exactly
`logger.error({ error: error instanceof Error ? error.message : String(error) }, '[Agent] Failed');`
with the trailing colon stripped. -/
theorem C8_scenario_b_exact :
    replace_console_error "Agent" docScenarioB = outScenarioB := by decide

/-- Claim C9: over any filesystem, the orchestrator records one outcome per
identifier in listed order — `false` exactly where the expected path is
missing, with every remaining identifier still processed — and the final
summary reports the number of present files over the total count of 5. -/
theorem C9_missing_file_isolated (fs : FS) :
    (asl_run_agents AGENT_LIST fs).1
        = AGENT_LIST.map (fun ap => (fs (agentFilePath ap.1)).isSome)
      ∧ asl_success_count fs
        = (AGENT_LIST.filter (fun ap => (fs (agentFilePath ap.1)).isSome)).length
      ∧ asl_total_count = 5 := by
  refine ⟨asl_outcomes_eq AGENT_LIST fs, ?_, rfl⟩
  unfold asl_success_count
  rw [asl_outcomes_eq AGENT_LIST fs, count_true_map_eq]

/-- Claim C9 (witness, at a filesystem missing exactly one identifier's
file). -/
theorem C9_missing_file_isolated_witness :
    (asl_run_agents AGENT_LIST fsMissingStorefront).1
        = AGENT_LIST.map (fun ap => ((fsMissingStorefront (agentFilePath ap.1))).isSome)
      ∧ asl_success_count fsMissingStorefront
        = (AGENT_LIST.filter
            (fun ap => ((fsMissingStorefront (agentFilePath ap.1))).isSome)).length
      ∧ asl_total_count = 5 :=
  C9_missing_file_isolated fsMissingStorefront

/-- Claim C10 (counterexample): a document can contain the canonical
`CORRECT_LOGGER` text and still be changed by `fix_logger_definition`, when
it also contains an old-style declaration elsewhere. -/
theorem C10_changed_despite_containing_canonical :
    containsSub CORRECT_LOGGER docTwoLoggers = true
      ∧ fix_logger_definition docTwoLoggers ≠ docTwoLoggers := by
  refine ⟨by decide, by decide⟩

/-- Claim C10 (amended): the canonical declaration itself is a fixed point
of `fix_logger_definition` (its body's first closing brace is followed by a
parenthesis, not a semicolon, so the pattern cannot match inside it), and on
the counterexample document applying the fix twice equals applying it
once. -/
theorem C10_canonical_fixed_point :
    fix_logger_definition CORRECT_LOGGER = CORRECT_LOGGER
      ∧ fix_logger_definition (fix_logger_definition docTwoLoggers)
          = fix_logger_definition docTwoLoggers := by
  refine ⟨by decide, by decide⟩

end StructLog
